import Mathlib

/-
  Verification development for the x-cookies repository (main.py and
  inject_cookies.py): a shallow embedding of the cookie export adapter,
  the import adapter, and the orchestrator control flow, with theorems
  settling the specification claims.

  Modelling conventions:
  - JSON / Python values are embedded by the inductive `Json` (numbers are
    integers, which covers every value this program produces or inspects;
    digits in timestamp strings are modelled as ASCII digits).
  - Python dicts are association lists `List (String × Json)`; `dict.get`
    is `List.lookup` with a default.
  - `datetime.strptime(ts, "%Y-%m-%dT%H:%M:%SZ")` followed by
    `.timestamp()` is modelled by `parseISOChars` plus a proleptic
    Gregorian epoch computation: each numeric field consumes a maximal
    digit run of bounded width (equivalent to the backtracking regex used
    by the library there, because every literal separator in the format is
    a non-digit), the year takes exactly four digits, the day also accepts
    the space-padded single digit of its directive, the literals `T` and
    `Z` are case-insensitive as in the library, and the field ranges are
    validated exactly as datetime construction validates them.
  - `time.gmtime` + `time.strftime` on the export side are modelled by
    `epochToISOChars`; the current time and the random jitter of
    `get_future_date` are explicit parameters.
  - Effectful control flow (the orchestrator in main.py and the injection
    entry point in inject_cookies.py) is modelled by pure functions from
    the run's inputs to the list of externally visible effects.
-/

namespace XCookies

/-- JSON / Python value universe used by the cookie files. -/
inductive Json where
  | null
  | bool (b : Bool)
  | num (n : Int)
  | str (s : String)
  | arr (xs : List Json)
  | obj (fields : List (String × Json))

/-- Python truthiness (`bool(v)` / `if v:`) on embedded values. -/
def jTruthy : Json → Bool
  | .null => false
  | .bool b => b
  | .num n => n != 0
  | .str s => !s.data.isEmpty
  | .arr xs => !xs.isEmpty
  | .obj fs => !fs.isEmpty

/-- `dict.get(key, default)` on an embedded Python dict. -/
def jget (d : List (String × Json)) (k : String) (dflt : Json) : Json :=
  (d.lookup k).getD dflt

/- ---------------------------------------------------------------------
   Calendar arithmetic shared by both timestamp directions.
   --------------------------------------------------------------------- -/

/-- Gregorian leap-year test. -/
def isLeap (y : Nat) : Bool :=
  y % 4 == 0 && (y % 100 != 0 || y % 400 == 0)

/-- Number of days in year `y`. -/
def yearDays (y : Nat) : Nat :=
  if isLeap y then 366 else 365

/-- Number of days of month `m` (1-based) in a (non-)leap year. -/
def monthLen (leap : Bool) (m : Nat) : Nat :=
  if m = 2 then (if leap then 29 else 28)
  else if m = 4 ∨ m = 6 ∨ m = 9 ∨ m = 11 then 30
  else 31

/-- Days of the year strictly before month `m` (1-based). -/
def daysBeforeMonth (leap : Bool) : Nat → Nat
  | 0 => 0
  | 1 => 0
  | m + 1 => daysBeforeMonth leap m + monthLen leap m

/-- Total days of the `n` consecutive years starting at year `y`. -/
def daysUpTo : Nat → Nat → Nat
  | _, 0 => 0
  | y, n + 1 => yearDays y + daysUpTo (y + 1) n

/-- Signed day offset of Jan 1 of year `y` from the Unix epoch. -/
def epochDays (y : Nat) : Int :=
  if 1970 ≤ y then (daysUpTo 1970 (y - 1970) : Int)
  else -(daysUpTo y (1970 - y) : Int)

/-- Epoch seconds of a UTC civil datetime; this is the contract of
`datetime(..., tzinfo=timezone.utc).timestamp()` used by `iso_to_epoch`. -/
def epochOfDateTime (y mo d h mi s : Nat) : Int :=
  (epochDays y + (daysBeforeMonth (isLeap y) mo : Int) + ((d - 1 : Nat) : Int)) * 86400
    + ((h * 3600 + mi * 60 + s : Nat) : Int)

/- ---------------------------------------------------------------------
   The strptime model (import direction).
   --------------------------------------------------------------------- -/

/-- ASCII digit test, the character class of the numeric fields. -/
def isDigitCh (c : Char) : Bool :=
  48 ≤ c.toNat && c.toNat ≤ 57

/-- Decimal value of a digit run. -/
def digsVal (cs : List Char) : Nat :=
  cs.foldl (fun a c => a * 10 + (c.toNat - 48)) 0

/-- Consume a maximal run of digits of length `lo..hi`; this is what the
format's numeric directives match when followed by a non-digit literal
(`%Y` compiles to exactly four digits, the two-digit directives to one or
two digits with their value range checked downstream). -/
def numField (lo hi : Nat) (cs : List Char) : Option (Nat × List Char) :=
  let ds := cs.takeWhile isDigitCh
  if lo ≤ ds.length ∧ ds.length ≤ hi then some (digsVal ds, cs.dropWhile isDigitCh)
  else none

/-- The `%d` directive: like the other two-digit fields but with the extra
space-padded alternative ` [1-9]` of its regular expression. -/
def dayField (cs : List Char) : Option (Nat × List Char) :=
  match cs with
  | c0 :: c1 :: rest =>
    if c0 = ' ' then
      (if 49 ≤ c1.toNat ∧ c1.toNat ≤ 57 then some (c1.toNat - 48, rest) else none)
    else numField 1 2 cs
  | _ => numField 1 2 cs

/-- Consume one literal character, case-insensitively (`a` or `b`). -/
def charField (a b : Char) : List Char → Option (List Char)
  | [] => none
  | c :: rest => if c = a ∨ c = b then some rest else none

/-- Model of `datetime.strptime(ts, "%Y-%m-%dT%H:%M:%SZ")` composed with
the UTC epoch conversion of `iso_to_epoch`: `none` is a `ValueError`. -/
def parseISOChars (cs : List Char) : Option Int :=
  match numField 4 4 cs with
  | none => none
  | some (y, r1) =>
  match charField '-' '-' r1 with
  | none => none
  | some r2 =>
  match numField 1 2 r2 with
  | none => none
  | some (mo, r3) =>
  match charField '-' '-' r3 with
  | none => none
  | some r4 =>
  match dayField r4 with
  | none => none
  | some (d, r5) =>
  match charField 'T' 't' r5 with
  | none => none
  | some r6 =>
  match numField 1 2 r6 with
  | none => none
  | some (h, r7) =>
  match charField ':' ':' r7 with
  | none => none
  | some r8 =>
  match numField 1 2 r8 with
  | none => none
  | some (mi, r9) =>
  match charField ':' ':' r9 with
  | none => none
  | some r10 =>
  match numField 1 2 r10 with
  | none => none
  | some (s, r11) =>
  match charField 'Z' 'z' r11 with
  | none => none
  | some r12 =>
  if r12 = [] ∧ 1 ≤ y ∧ 1 ≤ mo ∧ mo ≤ 12 ∧ 1 ≤ d ∧ d ≤ monthLen (isLeap y) mo
      ∧ h ≤ 23 ∧ mi ≤ 59 ∧ s ≤ 59 then
    some (epochOfDateTime y mo d h mi s)
  else none

/-- `iso_to_epoch` from inject_cookies.py on an embedded Python value:
falsy input returns 0, a truthy string is parsed (`ValueError` yields 0),
and a truthy non-string raises `TypeError` inside `strptime` (`none`). -/
def iso_to_epoch (v : Json) : Option Int :=
  if jTruthy v then
    match v with
    | .str s => some ((parseISOChars s.data).getD 0)
    | _ => none
  else some 0

/- ---------------------------------------------------------------------
   The import adapter.
   --------------------------------------------------------------------- -/

/-- The `same_site_map` dict of `adapt_cookie` with its `"Lax"` default. -/
def same_site_map (n : Int) : Json :=
  if n = 0 then .str "Lax"
  else if n = 1 then .str "Strict"
  else if n = 2 then .str "None"
  else .str "Lax"

/-- Membership test against the set of the three valid sameSite labels. -/
def isValidSameSite : Json → Bool
  | .str s => s == "Lax" || s == "Strict" || s == "None"
  | _ => false

/-- `adapt_cookie` from inject_cookies.py. The result dict is an
association list in insertion order; `none` models the `TypeError` raised
by `strptime` on a truthy non-string `Expires` value. In Python
`isinstance(x, int)` also accepts booleans (with `True == 1` and
`False == 0`), which the `.bool` case mirrors. -/
def adapt_cookie (cookie : List (String × Json)) : Option (List (String × Json)) :=
  let name := jget cookie "Name" (.str "")
  let value := jget cookie "Value" (.str "")
  let domain0 := jget cookie "Domain" .null
  let domain := if jTruthy domain0 then domain0 else .str ".x.com"
  let path0 := jget cookie "Path" .null
  let path := if jTruthy path0 then path0 else .str "/"
  let secure := jTruthy (jget cookie "Secure" (.bool true))
  let httpOnly := jTruthy (jget cookie "HttpOnly" (.bool false))
  let ss0 := jget cookie "SameSite" .null
  let ss :=
    match ss0 with
    | .num n => same_site_map n
    | .bool b => same_site_map (if b then 1 else 0)
    | v => v
  (iso_to_epoch (jget cookie "Expires" .null)).map (fun expires =>
    [("name", name), ("value", value), ("domain", domain), ("path", path),
      ("secure", Json.bool secure), ("httpOnly", Json.bool httpOnly)]
    ++ (if isValidSameSite ss then [("sameSite", ss)] else [])
    ++ (if 0 < expires then [("expires", Json.num expires)] else []))

/- ---------------------------------------------------------------------
   The strftime model (export direction).
   --------------------------------------------------------------------- -/

/-- Locate the civil year of a day count since the epoch: starting at year
`y`, peel off whole years while they fit.  The fuel argument only bounds
the recursion; any fuel above the day count is enough. -/
def findYear : Nat → Nat → Nat → Nat × Nat
  | 0, y, d => (y, d)
  | fuel + 1, y, d =>
    if d < yearDays y then (y, d) else findYear fuel (y + 1) (d - yearDays y)

/-- Locate the month of a day-of-year, starting at month `m`. -/
def findMonth : Nat → Bool → Nat → Nat → Nat × Nat
  | 0, _, m, d => (m, d)
  | fuel + 1, leap, m, d =>
    if d < monthLen leap m then (m, d) else findMonth fuel leap (m + 1) (d - monthLen leap m)

/-- ASCII digit character of `n % 10`. -/
def decDigit (n : Nat) : Char :=
  match n with
  | 0 => '0' | 1 => '1' | 2 => '2' | 3 => '3' | 4 => '4'
  | 5 => '5' | 6 => '6' | 7 => '7' | 8 => '8' | 9 => '9'
  | _ => '0'

/-- Two-digit zero-padded decimal rendering (strftime numeric fields). -/
def pad2 (n : Nat) : List Char :=
  [decDigit (n / 10 % 10), decDigit (n % 10)]

/-- Four-digit zero-padded decimal rendering. -/
def pad4 (n : Nat) : List Char :=
  [decDigit (n / 1000 % 10), decDigit (n / 100 % 10), decDigit (n / 10 % 10), decDigit (n % 10)]

/-- The year field of strftime `%Y`: four digits for the years this
program can emit, all digits beyond that. -/
def year4 (n : Nat) : List Char :=
  if n < 10000 then pad4 n else Nat.toDigits 10 n

/-- Model of `time.strftime("%Y-%m-%dT%H:%M:%SZ", time.gmtime(t))` for a
nonnegative epoch second count `t`. -/
def epochToISOChars (t : Nat) : List Char :=
  let days := t / 86400
  let rem := t % 86400
  let yr := findYear (days + 1) 1970 days
  let md := findMonth 11 (isLeap yr.1) 1 yr.2
  year4 yr.1 ++ '-' :: (pad2 md.1 ++ '-' :: (pad2 (md.2 + 1)
    ++ 'T' :: (pad2 (rem / 3600) ++ ':' :: (pad2 (rem % 3600 / 60) ++ ':' :: (pad2 (rem % 60)
    ++ ['Z'])))))

/-- `get_future_date` from main.py: `now` is the integral part of
`time.time()` and `jitter` the integral contribution of
`random.uniform(0, 3600)`, so `jitter ≤ 3600`. -/
def get_future_date (now jitter days : Nat) : String :=
  ⟨epochToISOChars (now + days * 24 * 3600 + jitter)⟩

/- ---------------------------------------------------------------------
   The export adapter.
   --------------------------------------------------------------------- -/

/-- The fixed ordered CookieSet of main.py. -/
def COOKIE_NAMES : List String :=
  ["personalization_id", "kdt", "twid", "ct0", "auth_token", "att"]

/-- `value.replace('"', "")`: every double-quote character is removed. -/
def stripQuotes (s : String) : String :=
  ⟨s.data.filter (fun c => c ≠ '"')⟩

/-- The persisted on-disk cookie record schema of main.py. -/
structure CookieEntry where
  Name : String
  Value : String
  Path : String
  Domain : String
  Expires : String
  RawExpires : String
  MaxAge : Int
  Secure : Bool
  HttpOnly : Bool
  SameSite : Int
  Raw : String
  Unparsed : Json

/-- `create_cookie_template` from main.py. -/
def create_cookie_template (name value expires : String) : CookieEntry :=
  { Name := name, Value := stripQuotes value, Path := "", Domain := "twitter.com",
    Expires := expires, RawExpires := "", MaxAge := 0, Secure := false,
    HttpOnly := false, SameSite := 0, Raw := "", Unparsed := Json.null }

/-- `build_cookie_payload` from main.py; `cookie_values` is the extracted
dict and `now`, `jW`, `jM` the time and the two jitter draws of the two
`get_future_date` calls. -/
def build_cookie_payload (cookie_values : List (String × String)) (now jW jM : Nat) :
    List CookieEntry :=
  let one_week := get_future_date now jW 7
  let one_month := get_future_date now jM 30
  COOKIE_NAMES.map (fun name =>
    let expires := if name = "personalization_id" ∨ name = "kdt" then one_month else one_week
    create_cookie_template name ((cookie_values.lookup name).getD "") expires)

/-- The JSON object an entry becomes after `json.dump` in `save_cookies`
and `json.load` in `load_cookies`. -/
def entryToDict (e : CookieEntry) : List (String × Json) :=
  [("Name", Json.str e.Name), ("Value", Json.str e.Value), ("Path", Json.str e.Path),
    ("Domain", Json.str e.Domain), ("Expires", Json.str e.Expires),
    ("RawExpires", Json.str e.RawExpires), ("MaxAge", Json.num e.MaxAge),
    ("Secure", Json.bool e.Secure), ("HttpOnly", Json.bool e.HttpOnly),
    ("SameSite", Json.num e.SameSite), ("Raw", Json.str e.Raw), ("Unparsed", e.Unparsed)]

/- ---------------------------------------------------------------------
   Cookie extraction and the export orchestrator (main.py `main`).
   --------------------------------------------------------------------- -/

/-- First-match value of cookie `name` in the live jar, or `""`; this is
the per-name body of `extract_cookies`. -/
def extractValue (jar : List (String × String)) (name : String) : String :=
  ((jar.find? (fun item => item.1 == name)).map (fun item => item.2)).getD ""

/-- `extract_cookies` from main.py: the jar is the list of native
(name, value) cookies of the context, and the result dict keeps the
CookieSet order. -/
def extract_cookies (jar : List (String × String)) : List (String × String) :=
  COOKIE_NAMES.map (fun name => (name, extractValue jar name))

/-- Externally visible effects of an export run. -/
inductive ExpEffect where
  | saveFile (username : String) (payload : List CookieEntry)
  | smokeTest (username : String)

/-- Inputs of one orchestrator run that the environment decides: the
configuration strings, the two login probe results, the live jar, the
clock and jitters, and the smoke-test opt-out. -/
structure ExportConfig where
  username : String
  authToken : String
  alreadyLoggedIn : Bool
  tokenLoginOk : Bool
  jar : List (String × String)
  now : Nat
  jW : Nat
  jM : Nat
  skipTest : Bool

/-- The orchestrator tail after a verified login: extraction, the
completeness check, persistence and the smoke test. -/
def exportAfterAuth (c : ExportConfig) : List ExpEffect :=
  let cookies := extract_cookies c.jar
  let missing := (cookies.filter (fun p => p.2 == "")).map (fun p => p.1)
  if missing.isEmpty then
    let payload := build_cookie_payload cookies c.now c.jW c.jM
    ExpEffect.saveFile c.username payload
      :: (if c.skipTest then [] else [ExpEffect.smokeTest c.username])
  else []

/-- `main` from main.py as the list of effects of one run. -/
def mainExport (c : ExportConfig) : List ExpEffect :=
  if c.username = "" then []
  else if c.alreadyLoggedIn then exportAfterAuth c
  else if c.authToken = "" then []
  else if c.tokenLoginOk then exportAfterAuth c
  else []

/- ---------------------------------------------------------------------
   The import entry point (inject_cookies.py `main`).
   --------------------------------------------------------------------- -/

/-- Fatal outcomes of the import path. -/
inductive ImpError where
  | systemExit (msg : String)
  | typeError
  | attributeError

/-- Externally visible effects of an import run. -/
inductive ImpEffect where
  | connect (endpoint : String)
  | addCookies (adapted : List (List (String × Json)))
  | gotoHome
  | closeBrowser

/-- `load_cookies` from inject_cookies.py: `none` input models a file
whose text is not valid JSON (`json.JSONDecodeError`). -/
def load_cookies : Option Json → Except String (List Json)
  | none => Except.error "JSONDecodeError"
  | some (.arr xs) => Except.ok xs
  | some _ => Except.error "top-level value is not a list"

/-- The filtering list comprehension of `inject_and_open`: items without a
truthy `Name` are skipped before adaptation, a non-dict item raises
`AttributeError` at `item.get`, and `adapt_cookie` itself can raise. -/
def adaptAll : List Json → Except ImpError (List (List (String × Json)))
  | [] => Except.ok []
  | item :: rest =>
    match item with
    | .obj fields =>
      if jTruthy (jget fields "Name" .null) then
        match adapt_cookie fields with
        | some a =>
          match adaptAll rest with
          | Except.ok tail => Except.ok (a :: tail)
          | Except.error e => Except.error e
        | none => Except.error ImpError.typeError
      else adaptAll rest
    | _ => Except.error ImpError.attributeError

/-- Trace of an import run: its effects in order and its fatal outcome. -/
structure ImpRun where
  effects : List ImpEffect
  err : Option ImpError

/-- `inject_and_open` from inject_cookies.py: connect, adapt and filter,
abort on an empty adapted list, otherwise inject and open the site. -/
def inject_and_open (endpoint : String) (cookies : List Json) : ImpRun :=
  match adaptAll cookies with
  | Except.error e => { effects := [ImpEffect.connect endpoint], err := some e }
  | Except.ok adapted =>
    if adapted.isEmpty then
      { effects := [ImpEffect.connect endpoint],
        err := some (ImpError.systemExit "no cookies to inject") }
    else
      { effects := [ImpEffect.connect endpoint, ImpEffect.addCookies adapted,
          ImpEffect.gotoHome, ImpEffect.closeBrowser],
        err := none }

/-- `main` from inject_cookies.py after the cookie file is resolved:
`fileContent` is the parsed file (or `none` for invalid JSON). -/
def mainImport (fileContent : Option Json) (endpoint : String) : ImpRun :=
  match load_cookies fileContent with
  | Except.error msg => { effects := [], err := some (ImpError.systemExit msg) }
  | Except.ok cookies => inject_and_open endpoint cookies

/- ---------------------------------------------------------------------
   Structural lemmas about the import adapter.
   --------------------------------------------------------------------- -/

/-- The sameSite value computed by `adapt_cookie` before validation. -/
def adaptSS (cookie : List (String × Json)) : Json :=
  match jget cookie "SameSite" Json.null with
  | .num n => same_site_map n
  | .bool b => same_site_map (if b then 1 else 0)
  | v => v

theorem adapt_cookie_some (cookie r : List (String × Json))
    (hr : adapt_cookie cookie = some r) :
    ∃ ep, iso_to_epoch (jget cookie "Expires" Json.null) = some ep ∧
      r = [("name", jget cookie "Name" (Json.str "")),
          ("value", jget cookie "Value" (Json.str "")),
          ("domain", if jTruthy (jget cookie "Domain" Json.null)
            then jget cookie "Domain" Json.null else Json.str ".x.com"),
          ("path", if jTruthy (jget cookie "Path" Json.null)
            then jget cookie "Path" Json.null else Json.str "/"),
          ("secure", Json.bool (jTruthy (jget cookie "Secure" (Json.bool true)))),
          ("httpOnly", Json.bool (jTruthy (jget cookie "HttpOnly" (Json.bool false))))]
        ++ (if isValidSameSite (adaptSS cookie) then [("sameSite", adaptSS cookie)] else [])
        ++ (if 0 < ep then [("expires", Json.num ep)] else []) := by
  unfold adapt_cookie at hr
  obtain ⟨ep, hep, hfr⟩ := Option.map_eq_some'.mp hr
  exact ⟨ep, hep, hfr ▸ rfl⟩

theorem adapt_cookie_sameSite_lookup (cookie r : List (String × Json))
    (hr : adapt_cookie cookie = some r) :
    r.lookup "sameSite"
      = (if isValidSameSite (adaptSS cookie) then some (adaptSS cookie) else none) := by
  obtain ⟨ep, -, rfl⟩ := adapt_cookie_some cookie r hr
  by_cases hv : isValidSameSite (adaptSS cookie)
  · rw [if_pos hv, if_pos hv]
    rfl
  · rw [if_neg hv, if_neg hv]
    by_cases hex : 0 < ep
    · rw [if_pos hex]
      rfl
    · rw [if_neg hex]
      rfl

theorem adapt_cookie_expires_lookup (cookie r : List (String × Json)) (ep : Int)
    (hep : iso_to_epoch (jget cookie "Expires" Json.null) = some ep)
    (hr : adapt_cookie cookie = some r) :
    r.lookup "expires" = (if 0 < ep then some (Json.num ep) else none) := by
  obtain ⟨ep', hep', rfl⟩ := adapt_cookie_some cookie r hr
  rw [hep] at hep'
  obtain rfl : ep = ep' := Option.some.inj hep'
  by_cases hv : isValidSameSite (adaptSS cookie)
  · rw [if_pos hv]
    by_cases hex : 0 < ep
    · rw [if_pos hex, if_pos hex]
      rfl
    · rw [if_neg hex, if_neg hex]
      rfl
  · rw [if_neg hv]
    by_cases hex : 0 < ep
    · rw [if_pos hex, if_pos hex]
      rfl
    · rw [if_neg hex, if_neg hex]
      rfl

theorem iso_to_epoch_str (s : String) :
    iso_to_epoch (Json.str s) = some ((parseISOChars s.data).getD 0) := by
  by_cases h : s.data = []
  · rw [iso_to_epoch, if_neg (by simp [jTruthy, h])]
    rw [h]
    rfl
  · rw [iso_to_epoch, if_pos (by simp [jTruthy, h])]

/- ---------------------------------------------------------------------
   Claim C4.
   --------------------------------------------------------------------- -/

/-- C4: `adapt_cookie` on the entry with Name "ct0", Value "abc" and
SameSite 2 returns exactly the native cookie with the default domain
".x.com", path "/", secure true, httpOnly false and sameSite "None",
and the result has no expires key. -/
theorem C4_adapt_ct0_exact :
    adapt_cookie [("Name", Json.str "ct0"), ("Value", Json.str "abc"), ("SameSite", Json.num 2)]
        = some [("name", Json.str "ct0"), ("value", Json.str "abc"),
            ("domain", Json.str ".x.com"), ("path", Json.str "/"),
            ("secure", Json.bool true), ("httpOnly", Json.bool false),
            ("sameSite", Json.str "None")]
      ∧ (List.lookup "expires"
          [("name", Json.str "ct0"), ("value", Json.str "abc"),
            ("domain", Json.str ".x.com"), ("path", Json.str "/"),
            ("secure", Json.bool true), ("httpOnly", Json.bool false),
            ("sameSite", Json.str "None")]) = none :=
  ⟨rfl, rfl⟩

/- ---------------------------------------------------------------------
   Claim C1.
   --------------------------------------------------------------------- -/

/-- C1 (counterexample): on an entry with `SameSite = 5` the adapted
cookie does have a sameSite key, with value "Lax", contrary to the claim
that the key is absent. -/
theorem C1_counterexample_sameSite5_present :
    (adapt_cookie
        [("Name", Json.str "ct0"), ("Value", Json.str "abc"), ("SameSite", Json.num 5)]).map
        (fun r => r.lookup "sameSite")
      = some (some (Json.str "Lax")) :=
  rfl

/-- C1 (amended): for an import entry whose SameSite is an integer outside
the mapping 0, 1, 2, `adapt_cookie` defaults the label to "Lax", so the
sameSite key is present with value "Lax" in any successful adaptation. -/
theorem C1_unknown_sameSite_int_defaults_to_lax
    (cookie : List (String × Json)) (n : Int)
    (hss : cookie.lookup "SameSite" = some (Json.num n))
    (h0 : n ≠ 0) (h1 : n ≠ 1) (h2 : n ≠ 2)
    (r : List (String × Json)) (hr : adapt_cookie cookie = some r) :
    r.lookup "sameSite" = some (Json.str "Lax") := by
  have hS : adaptSS cookie = Json.str "Lax" := by
    rw [adaptSS, jget, hss]
    show same_site_map n = Json.str "Lax"
    rw [same_site_map, if_neg h0, if_neg h1, if_neg h2]
  rw [adapt_cookie_sameSite_lookup cookie r hr, hS]
  rfl

/-- C1 witness: the amended theorem applied to the concrete entry with
`SameSite = 5`. -/
theorem C1_unknown_sameSite_int_defaults_to_lax_witness :
    (List.lookup "sameSite"
        [("name", Json.str "ct0"), ("value", Json.str "abc"),
          ("domain", Json.str ".x.com"), ("path", Json.str "/"),
          ("secure", Json.bool true), ("httpOnly", Json.bool false),
          ("sameSite", Json.str "Lax")]) = some (Json.str "Lax") :=
  C1_unknown_sameSite_int_defaults_to_lax
    [("Name", Json.str "ct0"), ("Value", Json.str "abc"), ("SameSite", Json.num 5)] 5
    rfl (by decide) (by decide) (by decide) _ rfl

/- ---------------------------------------------------------------------
   Claim C6.
   --------------------------------------------------------------------- -/

/-- C6: the expires field of an adapted cookie is the epoch-second parse
of the ISO-8601 Expires string; an empty, missing or unparseable Expires
yields a result with no expires key at all, and a present expires value is
always strictly positive (never zero or invalid). -/
theorem C6_expires_parsed_or_omitted (cookie r : List (String × Json))
    (hr : adapt_cookie cookie = some r) :
    (∀ s e, cookie.lookup "Expires" = some (Json.str s) → parseISOChars s.data = some e →
        0 < e → r.lookup "expires" = some (Json.num e)) ∧
    (∀ s, cookie.lookup "Expires" = some (Json.str s) → parseISOChars s.data = none →
        r.lookup "expires" = none) ∧
    (cookie.lookup "Expires" = some (Json.str "") → r.lookup "expires" = none) ∧
    (cookie.lookup "Expires" = none → r.lookup "expires" = none) ∧
    (∀ e, r.lookup "expires" = some (Json.num e) → 0 < e) := by
  refine ⟨?_, ?_, ?_, ?_, ?_⟩
  · intro s e hs hp he
    have hep : iso_to_epoch (jget cookie "Expires" Json.null) = some e := by
      rw [jget, hs]
      rw [Option.getD_some, iso_to_epoch_str, hp]
      rfl
    rw [adapt_cookie_expires_lookup cookie r e hep hr, if_pos he]
  · intro s hs hp
    have hep : iso_to_epoch (jget cookie "Expires" Json.null) = some 0 := by
      rw [jget, hs]
      rw [Option.getD_some, iso_to_epoch_str, hp]
      rfl
    rw [adapt_cookie_expires_lookup cookie r 0 hep hr, if_neg (by omega)]
  · intro hs
    have hep : iso_to_epoch (jget cookie "Expires" Json.null) = some 0 := by
      rw [jget, hs]
      rfl
    rw [adapt_cookie_expires_lookup cookie r 0 hep hr, if_neg (by omega)]
  · intro hs
    have hep : iso_to_epoch (jget cookie "Expires" Json.null) = some 0 := by
      rw [jget, hs]
      rfl
    rw [adapt_cookie_expires_lookup cookie r 0 hep hr, if_neg (by omega)]
  · intro e he
    obtain ⟨ep, hep, -⟩ := adapt_cookie_some cookie r hr
    rw [adapt_cookie_expires_lookup cookie r ep hep hr] at he
    by_cases hex : 0 < ep
    · rw [if_pos hex] at he
      obtain rfl : ep = e := Json.num.inj (Option.some.inj he)
      exact hex
    · rw [if_neg hex] at he
      exact absurd he (by simp)

/-- C6 witness: the theorem applied to a concrete entry whose Expires
parses to a positive epoch. -/
theorem C6_expires_parsed_or_omitted_witness :
    (∀ s e,
        (List.lookup "Expires"
          [("Name", Json.str "ct0"), ("Expires", Json.str "2026-10-12T00:00:00Z")])
          = some (Json.str s) →
        parseISOChars s.data = some e → 0 < e →
        (List.lookup "expires"
          [("name", Json.str "ct0"), ("value", Json.str ""), ("domain", Json.str ".x.com"),
            ("path", Json.str "/"), ("secure", Json.bool true), ("httpOnly", Json.bool false),
            ("expires", Json.num 1791763200)]) = some (Json.num e)) ∧
    (∀ s,
        (List.lookup "Expires"
          [("Name", Json.str "ct0"), ("Expires", Json.str "2026-10-12T00:00:00Z")])
          = some (Json.str s) →
        parseISOChars s.data = none →
        (List.lookup "expires"
          [("name", Json.str "ct0"), ("value", Json.str ""), ("domain", Json.str ".x.com"),
            ("path", Json.str "/"), ("secure", Json.bool true), ("httpOnly", Json.bool false),
            ("expires", Json.num 1791763200)]) = none) ∧
    ((List.lookup "Expires"
        [("Name", Json.str "ct0"), ("Expires", Json.str "2026-10-12T00:00:00Z")])
        = some (Json.str "") →
      (List.lookup "expires"
        [("name", Json.str "ct0"), ("value", Json.str ""), ("domain", Json.str ".x.com"),
          ("path", Json.str "/"), ("secure", Json.bool true), ("httpOnly", Json.bool false),
          ("expires", Json.num 1791763200)]) = none) ∧
    ((List.lookup "Expires"
        [("Name", Json.str "ct0"), ("Expires", Json.str "2026-10-12T00:00:00Z")]) = none →
      (List.lookup "expires"
        [("name", Json.str "ct0"), ("value", Json.str ""), ("domain", Json.str ".x.com"),
          ("path", Json.str "/"), ("secure", Json.bool true), ("httpOnly", Json.bool false),
          ("expires", Json.num 1791763200)]) = none) ∧
    (∀ e,
        (List.lookup "expires"
          [("name", Json.str "ct0"), ("value", Json.str ""), ("domain", Json.str ".x.com"),
            ("path", Json.str "/"), ("secure", Json.bool true), ("httpOnly", Json.bool false),
            ("expires", Json.num 1791763200)]) = some (Json.num e) → 0 < e) :=
  C6_expires_parsed_or_omitted
    [("Name", Json.str "ct0"), ("Expires", Json.str "2026-10-12T00:00:00Z")]
    [("name", Json.str "ct0"), ("value", Json.str ""), ("domain", Json.str ".x.com"),
      ("path", Json.str "/"), ("secure", Json.bool true), ("httpOnly", Json.bool false),
      ("expires", Json.num 1791763200)]
    rfl

/- ---------------------------------------------------------------------
   Claim C9.
   --------------------------------------------------------------------- -/

/-- C9: the adapted cookie has no expires key exactly when the parsed
epoch of its string Expires field (0 for empty or unparseable) is not
strictly positive. -/
theorem C9_expires_omitted_iff_nonpositive (cookie r : List (String × Json)) (s : String)
    (hs : cookie.lookup "Expires" = some (Json.str s))
    (hr : adapt_cookie cookie = some r) :
    (r.lookup "expires" = none ↔ (parseISOChars s.data).getD 0 ≤ 0) := by
  have hep : iso_to_epoch (jget cookie "Expires" Json.null)
      = some ((parseISOChars s.data).getD 0) := by
    rw [jget, hs]
    rw [Option.getD_some, iso_to_epoch_str]
  rw [adapt_cookie_expires_lookup cookie r _ hep hr]
  by_cases hex : 0 < (parseISOChars s.data).getD 0
  · rw [if_pos hex]
    constructor
    · intro h
      exact absurd h (by simp)
    · omega
  · rw [if_neg hex]
    constructor
    · intro _
      omega
    · intro _
      rfl

/-- C9 witness: the Unix-epoch timestamp parses successfully to 0, is
neither empty nor a parse failure, and the adapted cookie still has no
expires key. -/
theorem C9_expires_omitted_iff_nonpositive_witness :
    ((List.lookup "expires"
        [("name", Json.str "ct0"), ("value", Json.str ""), ("domain", Json.str ".x.com"),
          ("path", Json.str "/"), ("secure", Json.bool true), ("httpOnly", Json.bool false)])
        = none
      ↔ (parseISOChars "1970-01-01T00:00:00Z".data).getD 0 ≤ 0) ∧
    parseISOChars "1970-01-01T00:00:00Z".data = some 0 :=
  ⟨C9_expires_omitted_iff_nonpositive
      [("Name", Json.str "ct0"), ("Expires", Json.str "1970-01-01T00:00:00Z")]
      [("name", Json.str "ct0"), ("value", Json.str ""), ("domain", Json.str ".x.com"),
        ("path", Json.str "/"), ("secure", Json.bool true), ("httpOnly", Json.bool false)]
      "1970-01-01T00:00:00Z" rfl rfl,
    rfl⟩

/- ---------------------------------------------------------------------
   Claim C5.
   --------------------------------------------------------------------- -/

/-- C5: for every value mapping, the export adapter produces exactly one
entry per CookieSet name in CookieSet order, and no entry's Value contains
a double-quote character. -/
theorem C5_one_entry_per_name_in_order_no_quotes
    (cookie_values : List (String × String)) (now jW jM : Nat) :
    (build_cookie_payload cookie_values now jW jM).map (fun e => e.Name) = COOKIE_NAMES ∧
      ∀ e ∈ build_cookie_payload cookie_values now jW jM, '"' ∉ e.Value.data := by
  refine ⟨rfl, ?_⟩
  intro e he
  simp only [build_cookie_payload, List.mem_map] at he
  obtain ⟨name, -, rfl⟩ := he
  simp [create_cookie_template, stripQuotes]

/-- C5 witness: the theorem at a mapping whose value carries an embedded
double quote; the exported first entry is quote-free. -/
theorem C5_one_entry_per_name_in_order_no_quotes_witness :
    (build_cookie_payload [("personalization_id", "p\"q")] 0 0 0).map (fun e => e.Name)
        = COOKIE_NAMES
      ∧ '"' ∉ (create_cookie_template "personalization_id" "p\"q"
          (get_future_date 0 0 30)).Value.data :=
  ⟨(C5_one_entry_per_name_in_order_no_quotes [("personalization_id", "p\"q")] 0 0 0).1,
    (C5_one_entry_per_name_in_order_no_quotes [("personalization_id", "p\"q")] 0 0 0).2
      _ (List.mem_cons_self _ _)⟩

/- ---------------------------------------------------------------------
   Claim C8.
   --------------------------------------------------------------------- -/

/-- C8: every exported entry carries the constant metadata Domain
"twitter.com", empty Path, Secure false, HttpOnly false, SameSite 0,
MaxAge 0, empty RawExpires and Raw, and null Unparsed; only Name, Value
and Expires vary. -/
theorem C8_constant_entry_metadata
    (cookie_values : List (String × String)) (now jW jM : Nat)
    (e : CookieEntry) (he : e ∈ build_cookie_payload cookie_values now jW jM) :
    e.Domain = "twitter.com" ∧ e.Path = "" ∧ e.Secure = false ∧ e.HttpOnly = false ∧
      e.SameSite = 0 ∧ e.MaxAge = 0 ∧ e.RawExpires = "" ∧ e.Raw = "" ∧
      e.Unparsed = Json.null := by
  simp only [build_cookie_payload, List.mem_map] at he
  obtain ⟨name, -, rfl⟩ := he
  exact ⟨rfl, rfl, rfl, rfl, rfl, rfl, rfl, rfl, rfl⟩

/-- C8 witness: the theorem at the first entry of a concrete export. -/
theorem C8_constant_entry_metadata_witness :
    (create_cookie_template "personalization_id" "v" (get_future_date 0 0 30)).Domain
        = "twitter.com"
      ∧ (create_cookie_template "personalization_id" "v" (get_future_date 0 0 30)).Path = ""
      ∧ (create_cookie_template "personalization_id" "v" (get_future_date 0 0 30)).Secure = false
      ∧ (create_cookie_template "personalization_id" "v" (get_future_date 0 0 30)).HttpOnly = false
      ∧ (create_cookie_template "personalization_id" "v" (get_future_date 0 0 30)).SameSite = 0
      ∧ (create_cookie_template "personalization_id" "v" (get_future_date 0 0 30)).MaxAge = 0
      ∧ (create_cookie_template "personalization_id" "v" (get_future_date 0 0 30)).RawExpires = ""
      ∧ (create_cookie_template "personalization_id" "v" (get_future_date 0 0 30)).Raw = ""
      ∧ (create_cookie_template "personalization_id" "v" (get_future_date 0 0 30)).Unparsed
        = Json.null :=
  C8_constant_entry_metadata [("personalization_id", "v")] 0 0 0 _ (List.mem_cons_self _ _)

/- ---------------------------------------------------------------------
   Claim C2.
   --------------------------------------------------------------------- -/

theorem lookup_mem {l : List (String × String)} {k v : String}
    (h : l.lookup k = some v) : (k, v) ∈ l := by
  induction l with
  | nil => exact absurd h (by simp)
  | cons a as ih =>
    obtain ⟨k', v'⟩ := a
    rw [List.lookup] at h
    cases hk : k == k' with
    | true =>
      rw [hk] at h
      obtain rfl := Option.some.inj h
      obtain rfl : k = k' := by simpa using hk
      exact List.mem_cons_self _ _
    | false =>
      rw [hk] at h
      exact List.mem_cons_of_mem _ (ih h)

/-- C2: if the extraction result maps any CookieSet name to an empty
value, the orchestrator run produces no file write and no smoke test. -/
theorem C2_incomplete_extraction_never_persists (c : ExportConfig)
    (h : ∃ name ∈ COOKIE_NAMES, (extract_cookies c.jar).lookup name = some "") :
    (∀ u p, ExpEffect.saveFile u p ∉ mainExport c) ∧
      (∀ u, ExpEffect.smokeTest u ∉ mainExport c) := by
  obtain ⟨name, -, hlk⟩ := h
  have hpair : (name, "") ∈ extract_cookies c.jar := lookup_mem hlk
  have hmiss :
      (((extract_cookies c.jar).filter (fun p => p.2 == "")).map (fun p => p.1)).isEmpty
        = false := by
    rcases hcase :
        ((extract_cookies c.jar).filter (fun p => p.2 == "")).map (fun p => p.1) with _ | _
    · exfalso
      have h1 : (extract_cookies c.jar).filter (fun p => p.2 == "") = [] :=
        List.map_eq_nil_iff.mp hcase
      rw [List.filter_eq_nil_iff] at h1
      exact absurd (by simp) (h1 _ hpair)
    · rw [hcase]
      rfl
  have hafter : exportAfterAuth c = [] := by
    rw [exportAfterAuth]
    simp only [hmiss]
    rfl
  have hmain : mainExport c = [] := by
    rw [mainExport]
    split_ifs <;> simp [hafter]
  rw [hmain]
  exact ⟨fun u p => List.not_mem_nil _, fun u => List.not_mem_nil _⟩

/-- C2 witness: a run against an empty jar (every name extracts empty)
writes nothing and runs no test. -/
theorem C2_incomplete_extraction_never_persists_witness :
    (∀ u p, ExpEffect.saveFile u p
        ∉ mainExport ⟨"user", "tok", true, true, [], 0, 0, 0, false⟩) ∧
      (∀ u, ExpEffect.smokeTest u
        ∉ mainExport ⟨"user", "tok", true, true, [], 0, 0, 0, false⟩) :=
  C2_incomplete_extraction_never_persists ⟨"user", "tok", true, true, [], 0, 0, 0, false⟩
    ⟨"personalization_id", List.mem_cons_self _ _, rfl⟩

/- ---------------------------------------------------------------------
   Claim C7.
   --------------------------------------------------------------------- -/

/-- C7: a cookie file whose top-level JSON value is not a list (or is not
valid JSON) makes the import path exit fatally with no browser effect at
all — no connection, no injection. -/
theorem C7_non_list_file_fatal_before_connect (content : Option Json) (endpoint : String)
    (h : ∀ xs, content ≠ some (Json.arr xs)) :
    ∃ msg, mainImport content endpoint =
      { effects := [], err := some (ImpError.systemExit msg) } := by
  cases content with
  | none => exact ⟨"JSONDecodeError", rfl⟩
  | some j =>
    cases j with
    | arr xs => exact absurd rfl (h xs)
    | null => exact ⟨"top-level value is not a list", rfl⟩
    | bool b => exact ⟨"top-level value is not a list", rfl⟩
    | num n => exact ⟨"top-level value is not a list", rfl⟩
    | str s => exact ⟨"top-level value is not a list", rfl⟩
    | obj fs => exact ⟨"top-level value is not a list", rfl⟩

/-- C7 witness: the theorem applied to a top-level JSON number. -/
theorem C7_non_list_file_fatal_before_connect_witness :
    ∃ msg, mainImport (some (Json.num 3)) "http://localhost:9222" =
      { effects := [], err := some (ImpError.systemExit msg) } :=
  C7_non_list_file_fatal_before_connect (some (Json.num 3)) "http://localhost:9222"
    (fun _ h => Json.noConfusion (Option.some.inj h))

/- ---------------------------------------------------------------------
   Claim C10.
   --------------------------------------------------------------------- -/

/-- C10: entries with a missing or empty Name are dropped before
adaptation, and an import whose filtered list is empty exits fatally after
connecting but before any cookies are added. -/
theorem C10_nameless_dropped_and_empty_list_fatal :
    (∀ (fields : List (String × Json)) (rest : List Json),
        (fields.lookup "Name" = none ∨ fields.lookup "Name" = some (Json.str "")) →
        adaptAll (Json.obj fields :: rest) = adaptAll rest) ∧
    (∀ (endpoint : String) (cookies : List Json), adaptAll cookies = Except.ok [] →
        ∃ msg, inject_and_open endpoint cookies =
          { effects := [ImpEffect.connect endpoint],
            err := some (ImpError.systemExit msg) }) := by
  constructor
  · intro fields rest h
    have hfalse : jTruthy (jget fields "Name" Json.null) = false := by
      rcases h with h | h
      · rw [jget, h]
        rfl
      · rw [jget, h]
        rfl
    rw [adaptAll]
    simp only [hfalse]
    rfl
  · intro endpoint cookies h
    refine ⟨"no cookies to inject", ?_⟩
    rw [inject_and_open, h]
    rfl

/-- C10 witness: a one-element file whose entry has no Name adapts to the
empty list and the run exits fatally with only the connect effect. -/
theorem C10_nameless_dropped_and_empty_list_fatal_witness :
    adaptAll [Json.obj [("Value", Json.str "v")]] = adaptAll [] ∧
      ∃ msg, inject_and_open "http://localhost:9222" [Json.obj [("Value", Json.str "v")]] =
        { effects := [ImpEffect.connect "http://localhost:9222"],
          err := some (ImpError.systemExit msg) } :=
  ⟨C10_nameless_dropped_and_empty_list_fatal.1 [("Value", Json.str "v")] [] (Or.inl rfl),
    C10_nameless_dropped_and_empty_list_fatal.2 "http://localhost:9222"
      [Json.obj [("Value", Json.str "v")]] rfl⟩

/- ---------------------------------------------------------------------
   Round-trip of the timestamp encodings (towards claim C3).
   --------------------------------------------------------------------- -/

theorem yearDays_ge (y : Nat) : 365 ≤ yearDays y := by
  rw [yearDays]
  split <;> omega

theorem daysUpTo_zero (y : Nat) : daysUpTo y 0 = 0 := rfl

theorem daysUpTo_succ (y n : Nat) : daysUpTo y (n + 1) = yearDays y + daysUpTo (y + 1) n := rfl

theorem daysUpTo_add (y a b : Nat) :
    daysUpTo y (a + b) = daysUpTo y a + daysUpTo (y + a) b := by
  induction a generalizing y with
  | zero => simp [daysUpTo_zero]
  | succ a ih =>
    have h1 : a + 1 + b = (a + b) + 1 := by omega
    rw [h1, daysUpTo_succ, daysUpTo_succ, ih (y + 1)]
    have h2 : y + 1 + a = y + (a + 1) := by omega
    rw [h2]
    omega

theorem findYear_spec (fuel : Nat) : ∀ (y d : Nat), d < fuel →
    ∃ n r, findYear fuel y d = (y + n, r) ∧ daysUpTo y n + r = d ∧ r < yearDays (y + n) := by
  induction fuel with
  | zero =>
    intro y d h
    omega
  | succ fuel ih =>
    intro y d h
    rw [findYear]
    by_cases hd : d < yearDays y
    · rw [if_pos hd]
      exact ⟨0, d, by simp, by simp [daysUpTo_zero], by simpa using hd⟩
    · rw [if_neg hd]
      have h365 := yearDays_ge y
      obtain ⟨n, r, h1, h2, h3⟩ := ih (y + 1) (d - yearDays y) (by omega)
      refine ⟨n + 1, r, ?_, ?_, ?_⟩
      · rw [h1]
        have : y + 1 + n = y + (n + 1) := by omega
        rw [this]
      · rw [daysUpTo_succ]
        omega
      · have : y + (n + 1) = y + 1 + n := by omega
        rw [this]
        exact h3

theorem isLeap_add400 (y : Nat) : isLeap (y + 400) = isLeap y := by
  rw [isLeap, isLeap]
  have h4 : (y + 400) % 4 = y % 4 := by omega
  have h100 : (y + 400) % 100 = y % 100 := by omega
  have h400 : (y + 400) % 400 = y % 400 := by omega
  rw [h4, h100, h400]

theorem yearDays_add400 (y : Nat) : yearDays (y + 400) = yearDays y := by
  rw [yearDays, yearDays, isLeap_add400]

theorem daysUpTo_one (y : Nat) : daysUpTo y 1 = yearDays y := by
  rw [daysUpTo_succ, daysUpTo_zero]
  omega

theorem daysUpTo_400_shift (y : Nat) : daysUpTo (y + 1) 400 = daysUpTo y 400 := by
  have h1 : daysUpTo y (1 + 400) = yearDays y + daysUpTo (y + 1) 400 := by
    rw [daysUpTo_add, daysUpTo_one]
  have h2 : daysUpTo y (400 + 1) = daysUpTo y 400 + yearDays (y + 400) := by
    rw [daysUpTo_add, daysUpTo_one]
  rw [yearDays_add400] at h2
  have h3 : 1 + 400 = 400 + 1 := by omega
  rw [h3] at h1
  omega

set_option maxRecDepth 4000 in
theorem daysUpTo_400 (y : Nat) : daysUpTo y 400 = 146097 := by
  induction y with
  | zero => rfl
  | succ y ih => rw [daysUpTo_400_shift, ih]

theorem daysUpTo_400k (y k : Nat) : daysUpTo y (400 * k) = 146097 * k := by
  induction k generalizing y with
  | zero => simp [daysUpTo_zero]
  | succ k ih =>
    have h1 : 400 * (k + 1) = 400 * k + 400 := by ring
    rw [h1, daysUpTo_add, ih, daysUpTo_400]
    ring

set_option maxRecDepth 4000 in
theorem daysUpTo_1970_8030 : daysUpTo 1970 8030 = 2932897 := by
  have h : (8030 : Nat) = 400 * 20 + 30 := by norm_num
  rw [h, daysUpTo_add, daysUpTo_400k]
  have h30 : daysUpTo (1970 + 400 * 20) 30 = 10957 := rfl
  rw [h30]

theorem findYear_year_le (n : Nat) (h : daysUpTo 1970 n ≤ 2932896) : n ≤ 8029 := by
  by_contra hc
  have hsplit := daysUpTo_add 1970 8030 (n - 8030)
  rw [show 8030 + (n - 8030) = n from by omega] at hsplit
  rw [daysUpTo_1970_8030] at hsplit
  omega

theorem daysBeforeMonth_succ (leap : Bool) (m : Nat) (h : 1 ≤ m) :
    daysBeforeMonth leap (m + 1) = daysBeforeMonth leap m + monthLen leap m := by
  obtain ⟨k, rfl⟩ : ∃ k, m = k + 1 := ⟨m - 1, by omega⟩
  rfl

theorem findMonth_go_spec (leap : Bool) : ∀ (f m d : Nat), 1 ≤ m →
    d + daysBeforeMonth leap m + 1 ≤ daysBeforeMonth leap (m + f) + monthLen leap (m + f) →
    m ≤ (findMonth f leap m d).1 ∧ (findMonth f leap m d).1 ≤ m + f ∧
      (findMonth f leap m d).2 < monthLen leap (findMonth f leap m d).1 ∧
      daysBeforeMonth leap (findMonth f leap m d).1 + (findMonth f leap m d).2
        = daysBeforeMonth leap m + d := by
  intro f
  induction f with
  | zero =>
    intro m d hm hb
    have e0 : findMonth 0 leap m d = (m, d) := rfl
    rw [e0]
    dsimp only
    have hm0 : m + 0 = m := by omega
    rw [hm0] at hb
    exact ⟨le_refl m, by omega, by omega, by omega⟩
  | succ f ih =>
    intro m d hm hb
    have e1 : findMonth (f + 1) leap m d =
        (if d < monthLen leap m then (m, d)
          else findMonth f leap (m + 1) (d - monthLen leap m)) := rfl
    rw [e1]
    by_cases hd : d < monthLen leap m
    · rw [if_pos hd]
      dsimp only
      exact ⟨le_refl m, by omega, hd, by omega⟩
    · rw [if_neg hd]
      have hS := daysBeforeMonth_succ leap m hm
      have harg : m + (f + 1) = (m + 1) + f := by omega
      rw [harg] at hb
      have hrec := ih (m + 1) (d - monthLen leap m) (by omega) (by omega)
      obtain ⟨hA, hB, hC, hD⟩ := hrec
      exact ⟨by omega, by omega, hC, by omega⟩

theorem findMonth_spec (leap : Bool) (d : Nat) (h : d < (if leap then 366 else 365)) :
    1 ≤ (findMonth 11 leap 1 d).1 ∧ (findMonth 11 leap 1 d).1 ≤ 12 ∧
      (findMonth 11 leap 1 d).2 < monthLen leap (findMonth 11 leap 1 d).1 ∧
      daysBeforeMonth leap (findMonth 11 leap 1 d).1 + (findMonth 11 leap 1 d).2 = d := by
  have hS12 : daysBeforeMonth leap 12 + monthLen leap 12 = (if leap then 366 else 365) := by
    cases leap <;> rfl
  have hS1 : daysBeforeMonth leap 1 = 0 := rfl
  have h112 : (1 + 11 : Nat) = 12 := rfl
  have h0 := findMonth_go_spec leap 11 1 d (by omega) (by rw [h112]; omega)
  obtain ⟨hA, hB, hC, hD⟩ := h0
  exact ⟨hA, by omega, hC, by omega⟩

theorem monthLen_le (leap : Bool) (m : Nat) : monthLen leap m ≤ 31 := by
  rw [monthLen]
  split_ifs <;> omega

theorem decDigit_spec : ∀ k, k < 10 → isDigitCh (decDigit k) = true ∧ (decDigit k).toNat = 48 + k := by
  decide

theorem pad2_all_digits (n : Nat) : ∀ x ∈ pad2 n, isDigitCh x = true := by
  intro x hx
  rw [pad2] at hx
  rcases List.mem_cons.mp hx with rfl | hx
  · exact (decDigit_spec _ (Nat.mod_lt _ (by omega))).1
  rcases List.mem_cons.mp hx with rfl | hx
  · exact (decDigit_spec _ (Nat.mod_lt _ (by omega))).1
  exact absurd hx (List.not_mem_nil _)

theorem pad4_all_digits (n : Nat) : ∀ x ∈ pad4 n, isDigitCh x = true := by
  intro x hx
  rw [pad4] at hx
  rcases List.mem_cons.mp hx with rfl | hx
  · exact (decDigit_spec _ (Nat.mod_lt _ (by omega))).1
  rcases List.mem_cons.mp hx with rfl | hx
  · exact (decDigit_spec _ (Nat.mod_lt _ (by omega))).1
  rcases List.mem_cons.mp hx with rfl | hx
  · exact (decDigit_spec _ (Nat.mod_lt _ (by omega))).1
  rcases List.mem_cons.mp hx with rfl | hx
  · exact (decDigit_spec _ (Nat.mod_lt _ (by omega))).1
  exact absurd hx (List.not_mem_nil _)

theorem digsVal_pad2 (n : Nat) (h : n ≤ 99) : digsVal (pad2 n) = n := by
  rw [pad2, digsVal]
  simp only [List.foldl]
  rw [(decDigit_spec (n / 10 % 10) (Nat.mod_lt _ (by omega))).2,
    (decDigit_spec (n % 10) (Nat.mod_lt _ (by omega))).2]
  omega

theorem digsVal_pad4 (n : Nat) (h : n ≤ 9999) : digsVal (pad4 n) = n := by
  rw [pad4, digsVal]
  simp only [List.foldl]
  rw [(decDigit_spec (n / 1000 % 10) (Nat.mod_lt _ (by omega))).2,
    (decDigit_spec (n / 100 % 10) (Nat.mod_lt _ (by omega))).2,
    (decDigit_spec (n / 10 % 10) (Nat.mod_lt _ (by omega))).2,
    (decDigit_spec (n % 10) (Nat.mod_lt _ (by omega))).2]
  omega

theorem takeWhile_run (p : Char → Bool) (ds : List Char) (c : Char) (rest : List Char)
    (hds : ∀ x ∈ ds, p x = true) (hc : p c = false) :
    (ds ++ c :: rest).takeWhile p = ds ∧ (ds ++ c :: rest).dropWhile p = c :: rest := by
  induction ds with
  | nil => simp [List.takeWhile_cons, List.dropWhile_cons, hc]
  | cons d ds ih =>
    have hd : p d = true := hds d (List.mem_cons_self _ _)
    have ih' := ih (fun x hx => hds x (List.mem_cons_of_mem _ hx))
    simp [List.takeWhile_cons, List.dropWhile_cons, hd, ih'.1, ih'.2]

theorem numField_run (lo hi : Nat) (ds : List Char) (c : Char) (rest : List Char)
    (h1 : lo ≤ ds.length) (h2 : ds.length ≤ hi)
    (hds : ∀ x ∈ ds, isDigitCh x = true) (hc : isDigitCh c = false) :
    numField lo hi (ds ++ c :: rest) = some (digsVal ds, c :: rest) := by
  obtain ⟨ht, hd⟩ := takeWhile_run isDigitCh ds c rest hds hc
  rw [numField, ht, hd, if_pos ⟨h1, h2⟩]

theorem dayField_run (ds : List Char) (c : Char) (rest : List Char)
    (h1 : 1 ≤ ds.length) (h2 : ds.length ≤ 2)
    (hds : ∀ x ∈ ds, isDigitCh x = true) (hc : isDigitCh c = false) :
    dayField (ds ++ c :: rest) = some (digsVal ds, c :: rest) := by
  have hnum := numField_run 1 2 ds c rest h1 h2 hds hc
  cases ds with
  | nil => simp at h1
  | cons d ds' =>
    have hd : isDigitCh d = true := hds d (List.mem_cons_self _ _)
    have hdsp : ¬ d = ' ' := by
      intro h
      rw [h] at hd
      exact absurd hd (by decide)
    cases ds' with
    | nil =>
      show dayField (d :: c :: rest) = _
      rw [dayField]
      rw [if_neg hdsp]
      exact hnum
    | cons d2 ds'' =>
      show dayField (d :: d2 :: (ds'' ++ c :: rest)) = _
      rw [dayField]
      rw [if_neg hdsp]
      exact hnum

theorem charField_self (a b : Char) (rest : List Char) :
    charField a b (a :: rest) = some rest := by
  rw [charField, if_pos (Or.inl rfl)]

theorem parseISOChars_build (y mo d h mi s : Nat)
    (hy1 : 1 ≤ y) (hy2 : y ≤ 9999) (hmo1 : 1 ≤ mo) (hmo2 : mo ≤ 12)
    (hd1 : 1 ≤ d) (hd2 : d ≤ monthLen (isLeap y) mo)
    (hh : h ≤ 23) (hmi : mi ≤ 59) (hs : s ≤ 59) :
    parseISOChars (pad4 y ++ '-' :: (pad2 mo ++ '-' :: (pad2 d ++ 'T' :: (pad2 h
        ++ ':' :: (pad2 mi ++ ':' :: (pad2 s ++ ['Z']))))))
      = some (epochOfDateTime y mo d h mi s) := by
  rw [parseISOChars]
  rw [numField_run 4 4 (pad4 y) '-' _ (by simp [pad4]) (by simp [pad4])
    (pad4_all_digits y) (by decide)]
  dsimp only
  rw [charField_self]
  dsimp only
  rw [numField_run 1 2 (pad2 mo) '-' _ (by simp [pad2]) (by simp [pad2])
    (pad2_all_digits mo) (by decide)]
  dsimp only
  rw [charField_self]
  dsimp only
  rw [dayField_run (pad2 d) 'T' _ (by simp [pad2]) (by simp [pad2])
    (pad2_all_digits d) (by decide)]
  dsimp only
  rw [charField_self]
  dsimp only
  rw [numField_run 1 2 (pad2 h) ':' _ (by simp [pad2]) (by simp [pad2])
    (pad2_all_digits h) (by decide)]
  dsimp only
  rw [charField_self]
  dsimp only
  rw [numField_run 1 2 (pad2 mi) ':' _ (by simp [pad2]) (by simp [pad2])
    (pad2_all_digits mi) (by decide)]
  dsimp only
  rw [charField_self]
  dsimp only
  rw [numField_run 1 2 (pad2 s) 'Z' _ (by simp [pad2]) (by simp [pad2])
    (pad2_all_digits s) (by decide)]
  dsimp only
  rw [charField_self]
  dsimp only
  have hmle := monthLen_le (isLeap y) mo
  rw [digsVal_pad4 y (by omega), digsVal_pad2 mo (by omega), digsVal_pad2 d (by omega),
    digsVal_pad2 h (by omega), digsVal_pad2 mi (by omega), digsVal_pad2 s (by omega)]
  rw [if_pos ⟨rfl, hy1, hmo1, hmo2, hd1, hd2, hh, hmi, hs⟩]

theorem parse_epochToISO (t : Nat) (ht : t ≤ 253402300799) :
    parseISOChars (epochToISOChars t) = some ((t : Nat) : Int) := by
  obtain ⟨n, r, hfy, hsum, hry⟩ := findYear_spec (t / 86400 + 1) 1970 (t / 86400) (by omega)
  have hdUp : daysUpTo 1970 n ≤ 2932896 := by omega
  have hn : n ≤ 8029 := findYear_year_le n hdUp
  have hyd : r < (if isLeap (1970 + n) then 366 else 365) := by
    have h1 := hry
    rw [yearDays] at h1
    exact h1
  obtain ⟨hm1, hm12, hmd, hdsum⟩ := findMonth_spec (isLeap (1970 + n)) r hyd
  have hmle := monthLen_le (isLeap (1970 + n)) (findMonth 11 (isLeap (1970 + n)) 1 r).1
  simp only [epochToISOChars, hfy]
  rw [year4, if_pos (show 1970 + n < 10000 by omega)]
  rw [parseISOChars_build (1970 + n) (findMonth 11 (isLeap (1970 + n)) 1 r).1
    ((findMonth 11 (isLeap (1970 + n)) 1 r).2 + 1) (t % 86400 / 3600) (t % 86400 % 3600 / 60)
    (t % 86400 % 60) (by omega) (by omega) hm1 hm12 (by omega) (by omega)
    (by omega) (by omega) (by omega)]
  refine congrArg some ?_
  rw [epochOfDateTime, epochDays, if_pos (show 1970 ≤ 1970 + n by omega)]
  rw [show 1970 + n - 1970 = n from by omega]
  omega

/- ---------------------------------------------------------------------
   Claim C3.
   --------------------------------------------------------------------- -/

/-- C3: for every value mapping, importing what the export adapter
produced reproduces the sameSite label "Lax" (the label of the exported
SameSite integer 0) and an expires epoch equal to — in particular within
the same day as — the synthesized Expires timestamp, provided the
timestamps stay below the year-10000 bound of the four-digit format. -/
theorem C3_export_import_roundtrip (cookie_values : List (String × String)) (now jW jM : Nat)
    (hjW : jW ≤ 3600) (hjM : jM ≤ 3600) (hnow : now + 2595600 ≤ 253402300799) :
    ∀ e ∈ build_cookie_payload cookie_values now jW jM,
      e.SameSite = 0 ∧
      ∃ r t, adapt_cookie (entryToDict e) = some r ∧
        r.lookup "sameSite" = some (Json.str "Lax") ∧
        (t = now + 7 * 24 * 3600 + jW ∨ t = now + 30 * 24 * 3600 + jM) ∧
        e.Expires = (⟨epochToISOChars t⟩ : String) ∧
        r.lookup "expires" = some (Json.num ((t : Nat) : Int)) := by
  intro e he
  simp only [build_cookie_payload, List.mem_map] at he
  obtain ⟨name, -, rfl⟩ := he
  by_cases hcond : name = "personalization_id" ∨ name = "kdt"
  · refine ⟨rfl, ?_⟩
    rw [if_pos hcond]
    have hpt := parse_epochToISO (now + 30 * 24 * 3600 + jM) (by omega)
    have hiso : iso_to_epoch (jget (entryToDict (create_cookie_template name
        ((cookie_values.lookup name).getD "") (get_future_date now jM 30))) "Expires" Json.null)
        = some ((now + 30 * 24 * 3600 + jM : Nat) : Int) := by
      have h1 : jget (entryToDict (create_cookie_template name
          ((cookie_values.lookup name).getD "") (get_future_date now jM 30)))
          "Expires" Json.null
          = Json.str (get_future_date now jM 30) := rfl
      rw [h1, iso_to_epoch_str]
      rw [show (get_future_date now jM 30).data = epochToISOChars (now + 30 * 24 * 3600 + jM)
        from rfl]
      rw [hpt]
      rfl
    obtain ⟨r, hr⟩ : ∃ r, adapt_cookie (entryToDict (create_cookie_template name
        ((cookie_values.lookup name).getD "") (get_future_date now jM 30))) = some r := by
      simp only [adapt_cookie]
      rw [hiso]
      exact ⟨_, rfl⟩
    refine ⟨r, now + 30 * 24 * 3600 + jM, hr, ?_, Or.inr rfl, rfl, ?_⟩
    · rw [adapt_cookie_sameSite_lookup _ _ hr]
      rfl
    · rw [adapt_cookie_expires_lookup _ _ _ hiso hr, if_pos (by omega)]
  · refine ⟨rfl, ?_⟩
    rw [if_neg hcond]
    have hpt := parse_epochToISO (now + 7 * 24 * 3600 + jW) (by omega)
    have hiso : iso_to_epoch (jget (entryToDict (create_cookie_template name
        ((cookie_values.lookup name).getD "") (get_future_date now jW 7))) "Expires" Json.null)
        = some ((now + 7 * 24 * 3600 + jW : Nat) : Int) := by
      have h1 : jget (entryToDict (create_cookie_template name
          ((cookie_values.lookup name).getD "") (get_future_date now jW 7)))
          "Expires" Json.null
          = Json.str (get_future_date now jW 7) := rfl
      rw [h1, iso_to_epoch_str]
      rw [show (get_future_date now jW 7).data = epochToISOChars (now + 7 * 24 * 3600 + jW)
        from rfl]
      rw [hpt]
      rfl
    obtain ⟨r, hr⟩ : ∃ r, adapt_cookie (entryToDict (create_cookie_template name
        ((cookie_values.lookup name).getD "") (get_future_date now jW 7))) = some r := by
      simp only [adapt_cookie]
      rw [hiso]
      exact ⟨_, rfl⟩
    refine ⟨r, now + 7 * 24 * 3600 + jW, hr, ?_, Or.inl rfl, rfl, ?_⟩
    · rw [adapt_cookie_sameSite_lookup _ _ hr]
      rfl
    · rw [adapt_cookie_expires_lookup _ _ _ hiso hr, if_pos (by omega)]

/-- C3 witness: the round-trip theorem at the first entry of a concrete
export run at epoch 0 with no jitter. -/
theorem C3_export_import_roundtrip_witness :
    (create_cookie_template "personalization_id" "" (get_future_date 0 0 30)).SameSite = 0 ∧
      ∃ r t, adapt_cookie (entryToDict (create_cookie_template "personalization_id" ""
          (get_future_date 0 0 30))) = some r ∧
        r.lookup "sameSite" = some (Json.str "Lax") ∧
        (t = 0 + 7 * 24 * 3600 + 0 ∨ t = 0 + 30 * 24 * 3600 + 0) ∧
        (create_cookie_template "personalization_id" "" (get_future_date 0 0 30)).Expires
          = (⟨epochToISOChars t⟩ : String) ∧
        r.lookup "expires" = some (Json.num ((t : Nat) : Int)) :=
  C3_export_import_roundtrip [] 0 0 0 (by omega) (by omega) (by omega)
    (create_cookie_template "personalization_id" "" (get_future_date 0 0 30))
    (List.mem_cons_self _ _)

end XCookies
